import Mathlib

/-!
# Verification of the data-preparation / prediction-assembly pipeline
(`src/prediction/predictor_model.py`, class `Forecaster`)

Shallow embedding over ℚ. A pandas `DataFrame` holding a panel is a
`List Row`: each row carries the entity id (the `id_col` value), the time
value (a calendar date; used only when `time_col_dtype` is DATE/DATETIME)
and the remaining columns as an association list from column name to a
rational value. Dropping the id column turns a `Row` into a `SubRow`.
`MinMaxScaler` follows sklearn with default feature range [0, 1]:
`scale = 1 / (max - min)` where a zero data range is mapped to 1
(`_handle_zeros_in_scale`), `transform x = (x - min) * scale`,
`inverse y = y / scale + min`.
-/

namespace Predictor

/-- Calendar timestamp; `pd.to_datetime(...).dt.year/.dt.month` read these. -/
structure Date where
  year : Int
  month : Int
  day : Int
deriving Repr, DecidableEq

/-- One row of a panel dataframe: entity id, time value, remaining cells. -/
structure Row where
  id : Nat
  time : Date
  cells : List (String × ℚ)
deriving Repr, DecidableEq

/-- A row after the id column is dropped (`.drop(columns=id_col)`). -/
structure SubRow where
  time : Date
  cells : List (String × ℚ)
deriving Repr, DecidableEq

def Row.dropId (r : Row) : SubRow := ⟨r.time, r.cells⟩

/-- Read one cell by column name (first match), 0 if absent. -/
def cellVal (cells : List (String × ℚ)) (c : String) : ℚ :=
  ((cells.find? (fun p => p.1 == c)).map (fun p => p.2)).getD 0

def SubRow.get (r : SubRow) (c : String) : ℚ := cellVal r.cells c

/-- Column extraction from a sub-dataframe: `s[c].values`. -/
def colOf (s : List SubRow) (c : String) : List ℚ := s.map (fun r => r.get c)

/-- Row restriction to a column list: one row of `s[cols].values`. -/
def SubRow.restrict (r : SubRow) (cols : List String) : List ℚ :=
  cols.map (fun c => r.get c)

/-- Block extraction `s[cols].values` as a matrix (row major). -/
def blockOf (s : List SubRow) (cols : List String) : List (List ℚ) :=
  s.map (fun r => r.restrict cols)

/-- Replace-or-append a column on a full dataframe
(`df[name] = f(row)`, one value per row). pandas replaces the values of an
existing column; a new name is appended at the end. -/
def setCol (name : String) (f : Row → ℚ) (df : List Row) : List Row :=
  df.map (fun r =>
    { r with cells := r.cells.filter (fun p => !(p.1 == name)) ++ [(name, f r)] })

/-- `df[name] = np.array(vals)` with an explicit value per row
(requires `vals.length = df.length`; pandas raises otherwise, we keep the
zipped prefix). -/
def writeCol (df : List Row) (name : String) (vals : List ℚ) : List Row :=
  (df.zip vals).map (fun p =>
    { p.1 with
      cells := p.1.cells.filter (fun q => !(q.1 == name)) ++ [(name, p.2)] })

/-- Read a full-dataframe column by name. -/
def getColDf (df : List Row) (name : String) : List ℚ :=
  df.map (fun r => cellVal r.cells name)

/-! ## Schema (collaborator interface, `ForecastingSchema`) -/

structure ForecastingSchema where
  id_col : String
  time_col : String
  time_col_dtype : String
  target : String
  forecast_length : Nat
  past_covariates : List String
  future_covariates : List String
  static_covariates : List String
deriving Repr, DecidableEq

/-- `data_schema.time_col_dtype in ["DATE", "DATETIME"]`. -/
def ForecastingSchema.isCalendar (sch : ForecastingSchema) : Bool :=
  sch.time_col_dtype == "DATE" || sch.time_col_dtype == "DATETIME"

/-! ## MinMaxScaler (sklearn, feature range [0, 1]) -/

def listMin : List ℚ → ℚ
  | [] => 0
  | x :: xs => xs.foldl min x

def listMax : List ℚ → ℚ
  | [] => 0
  | x :: xs => xs.foldl max x

structure MinMaxScaler where
  dataMin : ℚ
  scale : ℚ
deriving Repr, DecidableEq

/-- `MinMaxScaler().fit(v)` on a single-column block: `data_min_ = min v`,
`scale_ = 1 / handle_zeros(max v - min v)` where a zero range becomes 1. -/
def fitScaler (v : List ℚ) : MinMaxScaler :=
  let mn := listMin v
  let mx := listMax v
  let range := mx - mn
  { dataMin := mn, scale := if range = 0 then 1 else 1 / range }

def MinMaxScaler.transformOne (sc : MinMaxScaler) (x : ℚ) : ℚ :=
  (x - sc.dataMin) * sc.scale

def MinMaxScaler.inverseOne (sc : MinMaxScaler) (y : ℚ) : ℚ :=
  y / sc.scale + sc.dataMin

def MinMaxScaler.transformList (sc : MinMaxScaler) (v : List ℚ) : List ℚ :=
  v.map sc.transformOne

def MinMaxScaler.inverseList (sc : MinMaxScaler) (v : List ℚ) : List ℚ :=
  v.map sc.inverseOne

/-! ## Series segmentation (`history.groupby(id_col)`)

pandas `groupby` with the default `sort=True` lists group keys in
ascending sorted order; `get_group` preserves the source row order inside
each group. -/

/-- The distinct entity ids of a panel, in ascending order:
`list(groups_by_ids.groups.keys())`. -/
def groupKeys (df : List Row) : List Nat :=
  List.insertionSort (· ≤ ·) (df.map Row.id).dedup

/-- `groups_by_ids.get_group(id_).drop(columns=id_col)`: the rows of one
entity in source order, with the id column removed. -/
def getGroup (df : List Row) (i : Nat) : List SubRow :=
  (df.filter (fun r => r.id == i)).map Row.dropId

/-- The per-entity sub-dataframes in key order (`all_series`). -/
def allSeriesOf (df : List Row) : List (List SubRow) :=
  (groupKeys df).map (getGroup df)

/-- The segmentation order the spec describes: first-occurrence order of
the entity id in the panel. Modelled from the spec's words, for comparison
with `groupKeys`. -/
def firstOccurrenceKeys (df : List Row) : List Nat :=
  dedupFirst (df.map Row.id)
where
  dedupFirst : List Nat → List Nat
    | [] => []
    | x :: xs => x :: (dedupFirst xs).filter (fun y => !(y == x))

/-! ## History truncation (`s.iloc[-self.history_length:]`) -/

/-- Python truthiness of the optional `history_length` argument. -/
def truthy : Option Nat → Bool
  | none => false
  | some n => !(n == 0)

/-- `s.iloc[-L:]`: the last `L` rows (for `L = 0`, `iloc[-0:] = iloc[0:]`
is the whole frame; for `L ≥ len` it is also the whole frame). -/
def ilocTail (L : Nat) (s : List SubRow) : List SubRow :=
  if L = 0 then s else s.drop (s.length - L)

/-- Lines 231-232 and 267-268:
`if history_length: s = s.iloc[-self.history_length :]`.
The guard tests the `history_length` argument, but the slice length is the
field `self.history_length`. When the guard holds and the field is `None`,
the Python raises a `TypeError` (modelled as the unchanged frame; the
supported entry point `train_predictor_model` always passes
`history_length=model.history_length`, so both agree there). -/
def truncateSeries (selfHistLen argHistLen : Option Nat) (s : List SubRow) :
    List SubRow :=
  if truthy argHistLen then ilocTail (selfHistLen.getD 0) s else s

/-! ## Per-entity preparation loop (lines 230-257) -/

/-- numpy `.reshape(-1, 1)` on a matrix: all values, one per row. -/
def reshapeCol (m : List (List ℚ)) : List (List ℚ) :=
  m.flatten.map (fun x => [x])

/-- `MinMaxScaler().fit_transform(m)` on a 2-D block: sklearn scales each
column independently by that column's own min/max. -/
def fitTransformCols (m : List (List ℚ)) : List (List ℚ) :=
  let ncols := (m.headD []).length
  m.map (fun r =>
    (List.range ncols).map (fun j =>
      (fitScaler (m.map (fun row => row.getD j 0))).transformOne (r.getD j 0)))

/-- sklearn's `check_array` step at the start of `fit_transform`: the
input must be a non-empty 2-D block with at least one column and equal
row lengths; a malformed (e.g. 1-D) input raises the dimensionality
`ValueError`, modelled as `none`. -/
def fitTransformChecked (m : List (List ℚ)) : Option (List (List ℚ)) :=
  if m ≠ [] ∧ (m.headD []).length ≠ 0 ∧
      (∀ row ∈ m, row.length = (m.headD []).length)
  then some (fitTransformCols m) else none

structure EntityPrep where
  /-- the scaled target series (`TimeSeries.from_dataframe(s, value_cols=target)`). -/
  target : List ℚ
  /-- the target scaler stored under this entity's index (`scalers[index]`). -/
  scaler : MinMaxScaler
  /-- the scaled past/static covariate block, when such columns are declared. -/
  past : Option (List (List ℚ))
deriving Repr, DecidableEq

/-- One iteration of the loop over `enumerate(all_series)`:
truncate, fit+apply the target scaler, build the past/static block.
(`reset_index` only renumbers positions and leaves the values untouched.) -/
def entityPrep (sch : ForecastingSchema) (selfHistLen argHistLen : Option Nat)
    (s : List SubRow) : EntityPrep :=
  let s := truncateSeries selfHistLen argHistLen s
  let tvals := colOf s sch.target
  let scaler := fitScaler tvals
  let pastCols := sch.past_covariates ++ sch.static_covariates
  let past :=
    if pastCols.isEmpty then none
    else
      let block := blockOf s pastCols
      let original := if pastCols.length = 1 then reshapeCol block else block
      some (fitTransformCols original)
  { target := scaler.transformList tvals, scaler := scaler, past := past }

/-- One iteration of the future-covariate loop (lines 266-289): truncate
the training sub-frame, restrict both frames to the future-covariate
columns, concatenate train rows before test rows, fit one scaler on the
concatenation and scale it. -/
def futureBlock (futureNames : List String) (selfHistLen argHistLen : Option Nat)
    (trainS testS : List SubRow) : List (List ℚ) :=
  let trainS := truncateSeries selfHistLen argHistLen trainS
  let m := blockOf trainS futureNames ++ blockOf testS futureNames
  let original := if futureNames.length = 1 then reshapeCol m else m
  fitTransformCols original

/-! ## `Forecaster._prepare_data` (lines 182-296) -/

structure PrepOut where
  /-- the caller's training frame after the call (calendar columns added in place). -/
  historyOut : List Row
  /-- the caller's test frame after the call. -/
  testOut : List Row
  /-- `future_covariates_names` after the calendar step. -/
  futureNames : List String
  /-- `self.all_ids`. -/
  all_ids : List Nat
  /-- the returned `targets` list. -/
  targets : List (List ℚ)
  /-- `self.scalers`: insertion-ordered dict keyed by the enumerate index. -/
  scalers : List (Nat × MinMaxScaler)
  /-- the returned `past` list (`None` when no past/static columns). -/
  past : Option (List (List (List ℚ)))
  /-- the returned `future` list (`None` when no future-covariate columns). -/
  future : Option (List (List (List ℚ)))
deriving Repr, DecidableEq

/-- Adds `<time_col>_year` and `<time_col>_month` to a frame
(lines 206-212 / 215-219). -/
def addCalendarCols (time_col : String) (df : List Row) : List Row :=
  setCol (time_col ++ "_month") (fun r => (r.time.month : ℚ))
    (setCol (time_col ++ "_year") (fun r => (r.time.year : ℚ)) df)

def prepare_data (selfHistLen : Option Nat) (history : List Row)
    (sch : ForecastingSchema) (argHistLen : Option Nat)
    (test_dataframe : List Row) : PrepOut :=
  let cal := sch.isCalendar
  let futureNames :=
    if cal then
      sch.future_covariates ++ [sch.time_col ++ "_year", sch.time_col ++ "_month"]
    else sch.future_covariates
  let history := if cal then addCalendarCols sch.time_col history else history
  let test_dataframe :=
    if cal then addCalendarCols sch.time_col test_dataframe else test_dataframe
  let all_ids := groupKeys history
  let all_series := all_ids.map (getGroup history)
  let outs := all_series.map (entityPrep sch selfHistLen argHistLen)
  let pastList := outs.filterMap (fun e => e.past)
  let futureList :=
    if futureNames.isEmpty then []
    else
      let test_all_series := all_ids.map (getGroup test_dataframe)
      (all_series.zip test_all_series).map
        (fun p => futureBlock futureNames selfHistLen argHistLen p.1 p.2)
  { historyOut := history
    testOut := test_dataframe
    futureNames := futureNames
    all_ids := all_ids
    targets := outs.map (fun e => e.target)
    scalers := outs.enum.map (fun p => (p.1, p.2.scaler))
    past := if pastList.isEmpty then none else some pastList
    future := if futureList.isEmpty then none else some futureList }

/-! ## `Forecaster.fit` (lines 298-334) -/

/-- The arguments of the external call `self.model.fit(targets,
past_covariates=past_covariates)`. The external fit interface takes no
future covariates. -/
structure ExternalFitCall where
  series : List (List ℚ)
  past_covariates : Option (List (List (List ℚ)))
deriving Repr, DecidableEq

/-- The instance state retained after `fit`. -/
structure FitResult where
  is_trained : Bool
  data_schema : ForecastingSchema
  targets_series : List (List ℚ)
  past_covariates : Option (List (List (List ℚ)))
  future_covariates : Option (List (List (List ℚ)))
  scalers : List (Nat × MinMaxScaler)
  all_ids : List Nat
deriving Repr, DecidableEq

structure FitOutcome where
  /-- what was passed to the external model's fit. -/
  call : ExternalFitCall
  /-- the fields retained on `self`. -/
  state : FitResult
  /-- the caller's history frame after the call (mutated in place). -/
  historyOut : List Row
  /-- the caller's test frame after the call (mutated in place). -/
  testOut : List Row
deriving Repr, DecidableEq

def Forecaster.fit (use_exogenous : Bool) (selfHistLen : Option Nat)
    (history : List Row) (sch : ForecastingSchema) (argHistLen : Option Nat)
    (test_dataframe : List Row) : FitOutcome :=
  let prep := prepare_data selfHistLen history sch argHistLen test_dataframe
  let past := if use_exogenous then prep.past else none
  { call := { series := prep.targets, past_covariates := past }
    state :=
      { is_trained := true
        data_schema := sch
        targets_series := prep.targets
        past_covariates := past
        future_covariates := prep.future
        scalers := prep.scalers
        all_ids := prep.all_ids }
    historyOut := prep.historyOut
    testOut := prep.testOut }

/-! ## `Forecaster.predict` (lines 336-363) and `save` (365-374) -/

inductive FError where
  | notFitted
  | keyError
deriving Repr, DecidableEq

/-- Python dict lookup `self.scalers[index]`; `none` is the `KeyError`. -/
def dictGet (d : List (Nat × MinMaxScaler)) (k : Nat) : Option MinMaxScaler :=
  (d.find? (fun p => p.1 == k)).map (fun p => p.2)

/-- Lines 355-360: the flat `prediction_values` list built by iterating
`enumerate(predictions)` and inverse-transforming each forecast with the
scaler stored under its index. `predictions` is the value returned by the
external `self.model.predict(n, series, past_covariates)` call, one
forecast series per retained target series. -/
def predictionValues (scalers : List (Nat × MinMaxScaler))
    (predictions : List (List ℚ)) : Option (List ℚ) :=
  (predictions.enum.mapM (fun p =>
    (dictGet scalers p.1).map (fun sc => sc.inverseList p.2))).map List.flatten

def Forecaster.predict (st : FitResult) (predictions : List (List ℚ))
    (test_data : List Row) (prediction_col_name : String) :
    Except FError (List Row) :=
  if !st.is_trained then .error .notFitted
  else
    match predictionValues st.scalers predictions with
    | none => .error .keyError
    | some vals => .ok (writeCol test_data prediction_col_name vals)

def MODEL_FILE_NAME : String := "model.joblib"
def PREDICTOR_FILE_NAME : String := "predictor.joblib"

/-- `Forecaster.save`: guard, then the two artifacts written to disk. -/
def Forecaster.save (st : FitResult) : Except FError (String × String) :=
  if !st.is_trained then .error .notFitted
  else .ok (MODEL_FILE_NAME, PREDICTOR_FILE_NAME)

/-! ## Object-identity model for the in-place frame effects

Python frames are heap objects; `history[c] = v` and `test_data[c] = v`
mutate the caller's objects. A `Store` maps references to frames; the
store-level wrappers say which references each call writes. -/

def Store := Nat → List Row

def Store.update (σ : Store) (ref : Nat) (df : List Row) : Store :=
  fun x => if x = ref then df else σ x

/-- `fit` at the store level: the calendar columns land on the caller's
history and test objects themselves. -/
def Forecaster.fitStore (use_exogenous : Bool) (selfHistLen : Option Nat)
    (σ : Store) (historyRef : Nat) (sch : ForecastingSchema)
    (argHistLen : Option Nat) (testRef : Nat) : Store × FitOutcome :=
  let out := Forecaster.fit use_exogenous selfHistLen (σ historyRef) sch
    argHistLen (σ testRef)
  ((σ.update historyRef out.historyOut).update testRef out.testOut, out)

/-- `predict` at the store level: the prediction column is written onto
the caller's test object and that same reference is returned. -/
def Forecaster.predictStore (st : FitResult) (predictions : List (List ℚ))
    (σ : Store) (testRef : Nat) (prediction_col_name : String) :
    Except FError (Store × Nat) :=
  if !st.is_trained then .error .notFitted
  else
    match predictionValues st.scalers predictions with
    | none => .error .keyError
    | some vals =>
      .ok (σ.update testRef (writeCol (σ testRef) prediction_col_name vals), testRef)

/-! ## Derived definitions used by the lemmas -/

def MinMaxScaler.dummy : MinMaxScaler := ⟨0, 1⟩

/-- The scaler stored under index `k`, with a placeholder for a missing
key (the lemmas below only use it where the key is present). -/
def scalerAt (d : List (Nat × MinMaxScaler)) (k : Nat) : MinMaxScaler :=
  (dictGet d k).getD MinMaxScaler.dummy

/-- The training frame after the calendar step. -/
def prepHistoryOut (sch : ForecastingSchema) (df : List Row) : List Row :=
  if sch.isCalendar then addCalendarCols sch.time_col df else df

/-- `future_covariates_names` after the calendar step. -/
def prepFutureNames (sch : ForecastingSchema) : List String :=
  if sch.isCalendar then
    sch.future_covariates ++ [sch.time_col ++ "_year", sch.time_col ++ "_month"]
  else sch.future_covariates

/-- The per-entity loop results, in key order. -/
def prepOuts (sch : ForecastingSchema) (shl ahl : Option Nat)
    (history : List Row) : List EntityPrep :=
  (allSeriesOf (prepHistoryOut sch history)).map (entityPrep sch shl ahl)

/-! ## Witness fixtures: a small concrete panel -/

def dW0 : Date := ⟨2020, 1, 1⟩
def dW1 : Date := ⟨2020, 2, 1⟩

/-- A training panel: entity 1 appears before entity 0, two rows each. -/
def histW : List Row :=
  [⟨1, dW0, [("y", 10)]⟩, ⟨1, dW1, [("y", 20)]⟩,
   ⟨0, dW0, [("y", 5)]⟩, ⟨0, dW1, [("y", 7)]⟩]

/-- A 4-row test frame (horizon 2 per entity). -/
def testW : List Row :=
  [⟨0, dW0, []⟩, ⟨0, dW1, []⟩, ⟨1, dW0, []⟩, ⟨1, dW1, []⟩]

def schW : ForecastingSchema :=
  { id_col := "id", time_col := "t", time_col_dtype := "INT", target := "y",
    forecast_length := 2, past_covariates := [], future_covariates := [],
    static_covariates := [] }

def schDateW : ForecastingSchema := { schW with time_col_dtype := "DATE" }

/-- An untrained instance state (`__init__` sets `_is_trained = False`). -/
def stUntrained : FitResult :=
  { is_trained := false, data_schema := schW, targets_series := [],
    past_covariates := none, future_covariates := none, scalers := [],
    all_ids := [] }

/-- A trained instance state with an empty panel. -/
def stTrainedEmpty : FitResult :=
  { is_trained := true, data_schema := schW, targets_series := [],
    past_covariates := none, future_covariates := none, scalers := [],
    all_ids := [] }

/-- A two-object store for the C10 witness. -/
def storeW : Store := fun n => if n = 0 then histW else testW

/-! ## Scaler lemmas -/

/-- The fitted scale is never zero: `1 / range` with a nonzero range, or 1. -/
theorem fitScaler_scale_ne_zero (v : List ℚ) : (fitScaler v).scale ≠ 0 := by
  unfold fitScaler
  by_cases h : listMax v - listMin v = 0
  · simp [h]
  · simp [h]

theorem inverseOne_transformOne (sc : MinMaxScaler) (hs : sc.scale ≠ 0) (x : ℚ) :
    sc.inverseOne (sc.transformOne x) = x := by
  unfold MinMaxScaler.inverseOne MinMaxScaler.transformOne
  field_simp

theorem inverseList_transformList (sc : MinMaxScaler) (hs : sc.scale ≠ 0)
    (v : List ℚ) : sc.inverseList (sc.transformList v) = v := by
  unfold MinMaxScaler.inverseList MinMaxScaler.transformList
  rw [List.map_map]
  refine List.map_congr_left ?_ |>.trans (List.map_id v)
  intro x _
  exact inverseOne_transformOne sc hs x

/-! ## Helper lemmas: cells and columns -/

theorem find_filter_ne (cs : List (String × ℚ)) (name other : String)
    (h : other ≠ name) :
    (cs.filter (fun q => !(q.1 == name))).find? (fun p => p.1 == other) =
      cs.find? (fun p => p.1 == other) := by
  induction cs with
  | nil => rfl
  | cons c cs ih =>
    by_cases hc : c.1 = name
    · have hno : (name == other) = false := beq_eq_false_iff_ne.mpr (Ne.symm h)
      have hco : (c.1 == other) = false := by
        rw [hc]; exact hno
      simp [List.filter_cons, hc, List.find?, hco, ih, hno]
    · simp only [List.filter_cons]
      have : (c.1 == name) = false := by simp [hc]
      simp only [this, Bool.not_false, if_true]
      by_cases hco : c.1 = other
      · simp [List.find?, hco]
      · have : (c.1 == other) = false := by simp [hco]
        simp [List.find?, this, ih]

theorem cellVal_write_self (cs : List (String × ℚ)) (name : String) (v : ℚ) :
    cellVal (cs.filter (fun q => !(q.1 == name)) ++ [(name, v)]) name = v := by
  unfold cellVal
  rw [List.find?_append]
  have hnone : (cs.filter (fun q => !(q.1 == name))).find?
      (fun p => p.1 == name) = none := by
    rw [List.find?_eq_none]
    intro p hp
    have := List.of_mem_filter hp
    simpa using this
  simp [hnone, List.find?]

theorem cellVal_write_other (cs : List (String × ℚ)) (name other : String)
    (v : ℚ) (h : other ≠ name) :
    cellVal (cs.filter (fun q => !(q.1 == name)) ++ [(name, v)]) other =
      cellVal cs other := by
  unfold cellVal
  rw [List.find?_append, find_filter_ne cs name other h]
  have hno : (name == other) = false := beq_eq_false_iff_ne.mpr (Ne.symm h)
  have : ([((name : String), v)].find? (fun p => p.1 == other)) = none := by
    simp [List.find?, hno]
  cases hfind : cs.find? (fun p => p.1 == other) <;> simp [hfind, this]

theorem getColDf_setCol_self (name : String) (f : Row → ℚ) (df : List Row) :
    getColDf (setCol name f df) name = df.map f := by
  unfold getColDf setCol
  rw [List.map_map]
  refine List.map_congr_left ?_
  intro r _
  exact cellVal_write_self r.cells name (f r)

theorem getColDf_setCol_other (name other : String) (f : Row → ℚ)
    (df : List Row) (h : other ≠ name) :
    getColDf (setCol name f df) other = getColDf df other := by
  unfold getColDf setCol
  rw [List.map_map]
  refine List.map_congr_left ?_
  intro r _
  exact cellVal_write_other r.cells name other (f r) h

theorem map_id_setCol (name : String) (f : Row → ℚ) (df : List Row) :
    (setCol name f df).map Row.id = df.map Row.id := by
  unfold setCol
  rw [List.map_map]
  rfl

theorem string_append_year_ne_month (s : String) :
    s ++ "_year" ≠ s ++ "_month" := by
  intro h
  have hd := congrArg String.data h
  rw [String.data_append, String.data_append] at hd
  have := List.append_cancel_left hd
  simp at this

theorem getColDf_writeCol (df : List Row) (name : String) (vals : List ℚ)
    (h : df.length = vals.length) :
    getColDf (writeCol df name vals) name = vals := by
  induction df generalizing vals with
  | nil =>
    cases vals with
    | nil => rfl
    | cons v vs => simp at h
  | cons r rs ih =>
    cases vals with
    | nil => simp at h
    | cons v vs =>
      simp only [writeCol, getColDf, List.zip_cons_cons, List.map_cons,
        List.cons.injEq]
      constructor
      · exact cellVal_write_self r.cells name v
      · have := ih vs (by simpa using h)
        simpa [writeCol, getColDf] using this

/-! ## Helper lemmas: the scaler dict and prediction assembly -/

theorem dictGet_enumFrom_scaler (outs : List EntityPrep) (n k : Nat)
    (hnk : n ≤ k) (hk : k < n + outs.length) :
    dictGet ((outs.enumFrom n).map (fun p => (p.1, p.2.scaler))) k =
      (outs.map (fun e => e.scaler)).get? (k - n) := by
  induction outs generalizing n with
  | nil => simp at hk; omega
  | cons e es ih =>
    by_cases hkn : k = n
    · subst hkn
      simp [List.enumFrom, dictGet, List.find?]
    · have h1 : n + 1 ≤ k := by omega
      have h2 : k < n + 1 + es.length := by
        simp at hk; omega
      have hne : (n == k) = false := beq_eq_false_iff_ne.mpr (Ne.symm hkn)
      have hsub : k - n = (k - (n + 1)) + 1 := by omega
      simp only [List.enumFrom, List.map_cons, dictGet, List.find?, hne]
      rw [← dictGet]
      rw [ih (n + 1) h1 h2, hsub]
      simp

theorem dictGet_enum_scaler (outs : List EntityPrep) (k : Nat)
    (hk : k < outs.length) :
    dictGet (outs.enum.map (fun p => (p.1, p.2.scaler))) k =
      (outs.map (fun e => e.scaler)).get? k := by
  have := dictGet_enumFrom_scaler outs 0 k (Nat.zero_le k) (by omega)
  simpa [List.enum] using this

theorem dictGet_enum_scaler_isSome (outs : List EntityPrep) (k : Nat)
    (hk : k < outs.length) :
    (dictGet (outs.enum.map (fun p => (p.1, p.2.scaler))) k).isSome := by
  rw [dictGet_enum_scaler outs k hk]
  rw [List.get?_eq_getElem?, List.getElem?_eq_getElem (by simpa using hk)]
  rfl

theorem scalers_keys_eq_range (outs : List EntityPrep) :
    (outs.enum.map (fun p => (p.1, p.2.scaler))).map Prod.fst =
      List.range outs.length := by
  rw [List.map_map]
  have : (Prod.fst ∘ fun p : Nat × EntityPrep => (p.1, p.2.scaler)) =
      Prod.fst := rfl
  rw [this, List.enum_map_fst]

theorem mapM_inverse_enumFrom (d : List (Nat × MinMaxScaler))
    (preds : List (List ℚ)) (n : Nat)
    (h : ∀ i, i < preds.length → (dictGet d (n + i)).isSome) :
    (preds.enumFrom n).mapM
        (fun p => (dictGet d p.1).map (fun sc => sc.inverseList p.2)) =
      some ((preds.enumFrom n).map
        (fun p => (scalerAt d p.1).inverseList p.2)) := by
  induction preds generalizing n with
  | nil => rfl
  | cons p ps ih =>
    obtain ⟨sc, hsc⟩ := Option.isSome_iff_exists.mp (by simpa using h 0 (by simp))
    have hrec := ih (n + 1) (fun i hi => by
      have hx := h (i + 1) (by simp; omega)
      have e : n + 1 + i = n + (i + 1) := by omega
      rw [e]; exact hx)
    simp only [List.enumFrom, List.mapM_cons, hsc, Option.map_some, hrec,
      Option.bind_some, Option.some_bind, List.map_cons]
    simp [scalerAt, hsc]

theorem predictionValues_eq (d : List (Nat × MinMaxScaler))
    (preds : List (List ℚ))
    (h : ∀ i, i < preds.length → (dictGet d i).isSome) :
    predictionValues d preds =
      some ((preds.enum.map
        (fun p => (scalerAt d p.1).inverseList p.2)).flatten) := by
  unfold predictionValues
  rw [show preds.enum = preds.enumFrom 0 from rfl]
  rw [mapM_inverse_enumFrom d preds 0 (fun i hi => by simpa using h i hi)]
  rfl

/-! ## Helper lemmas: slicing a flat concatenation -/

theorem flatten_length_const {α : Type} (vs : List (List α)) (n : Nat)
    (h : ∀ v ∈ vs, v.length = n) :
    vs.flatten.length = vs.length * n := by
  induction vs with
  | nil => simp
  | cons v vs ih =>
    have hv := h v (by simp)
    have hrec := ih (fun w hw => h w (by simp [hw]))
    simp [List.flatten_cons, hv, hrec]
    ring

theorem flatten_slice {α : Type} (vs : List (List α)) (n : Nat)
    (h : ∀ v ∈ vs, v.length = n) (k : Nat) (hk : k < vs.length) :
    (vs.flatten.drop (k * n)).take n = vs.getD k [] := by
  induction vs generalizing k with
  | nil => simp at hk
  | cons v vs ih =>
    cases k with
    | zero =>
      simp only [Nat.zero_mul, List.drop_zero, List.flatten_cons, List.getD,
        List.getElem?_cons_zero, Option.getD_some]
      exact List.take_left' (h v (by simp))
    | succ k =>
      have hmul : (k + 1) * n = v.length + k * n := by
        rw [h v (by simp)]; ring
      have hrec := ih (fun w hw => h w (by simp [hw])) k (by simpa using hk)
      simp only [List.flatten_cons, hmul]
      rw [← List.drop_drop, List.drop_left]
      simpa [List.getD] using hrec

/-! ## Helper lemmas: segmentation order -/

theorem groupKeys_perm (df : List Row) :
    (groupKeys df).Perm (df.map Row.id).dedup :=
  List.perm_insertionSort _ _

theorem groupKeys_sorted (df : List Row) :
    List.Sorted (· ≤ ·) (groupKeys df) :=
  List.sorted_insertionSort _ _

theorem groupKeys_nodup (df : List Row) : (groupKeys df).Nodup :=
  ((groupKeys_perm df).nodup_iff).mpr (List.nodup_dedup _)

theorem mem_groupKeys (df : List Row) (i : Nat) :
    i ∈ groupKeys df ↔ i ∈ df.map Row.id := by
  rw [(groupKeys_perm df).mem_iff, List.mem_dedup]

theorem groupKeys_length (df : List Row) :
    (groupKeys df).length = (df.map Row.id).dedup.length :=
  (groupKeys_perm df).length_eq

/-! ## Structured view of `prepare_data` -/

theorem prepare_data_eq (shl ahl : Option Nat) (history test : List Row)
    (sch : ForecastingSchema) :
    prepare_data shl history sch ahl test =
      { historyOut := prepHistoryOut sch history
        testOut := prepHistoryOut sch test
        futureNames := prepFutureNames sch
        all_ids := groupKeys (prepHistoryOut sch history)
        targets := (prepOuts sch shl ahl history).map (fun e => e.target)
        scalers := (prepOuts sch shl ahl history).enum.map
          (fun p => (p.1, p.2.scaler))
        past :=
          if ((prepOuts sch shl ahl history).filterMap
              (fun e => e.past)).isEmpty then none
          else some ((prepOuts sch shl ahl history).filterMap (fun e => e.past))
        future :=
          let fl :=
            if (prepFutureNames sch).isEmpty then []
            else
              ((allSeriesOf (prepHistoryOut sch history)).zip
                ((groupKeys (prepHistoryOut sch history)).map
                  (getGroup (prepHistoryOut sch test)))).map
                (fun p =>
                  futureBlock (prepFutureNames sch) shl ahl p.1 p.2)
          if fl.isEmpty then none else some fl } := rfl

theorem prepOuts_scaler_ne_zero (sch : ForecastingSchema)
    (shl ahl : Option Nat) (history : List Row) :
    ∀ e ∈ prepOuts sch shl ahl history, e.scaler.scale ≠ 0 := by
  intro e he
  obtain ⟨s, _, rfl⟩ := List.mem_map.mp he
  exact fitScaler_scale_ne_zero _

theorem prepOuts_length (sch : ForecastingSchema) (shl ahl : Option Nat)
    (history : List Row) :
    (prepOuts sch shl ahl history).length =
      (groupKeys (prepHistoryOut sch history)).length := by
  unfold prepOuts allSeriesOf
  simp

/-! ## Claim theorems -/

/-- C3: on a `Forecaster` on which training has not completed
(`_is_trained` still false), `predict` returns the NotFitted-class error
and so does `save`; after a successful `fit` the trained flag is set and
`predict` never returns this error. -/
theorem C3_not_fitted_guard (st : FitResult) (hst : st.is_trained = false)
    (preds : List (List ℚ)) (test : List Row) (col : String)
    (use_exo : Bool) (shl ahl : Option Nat) (history test2 : List Row)
    (sch : ForecastingSchema) :
    Forecaster.predict st preds test col = Except.error FError.notFitted ∧
    Forecaster.save st = Except.error FError.notFitted ∧
    (Forecaster.fit use_exo shl history sch ahl test2).state.is_trained = true ∧
    ∀ preds2 test3 col2,
      Forecaster.predict (Forecaster.fit use_exo shl history sch ahl test2).state
        preds2 test3 col2 ≠ Except.error FError.notFitted := by
  refine ⟨by simp [Forecaster.predict, hst], by simp [Forecaster.save, hst],
    rfl, ?_⟩
  intro preds2 test3 col2
  have htr : (Forecaster.fit use_exo shl history sch ahl test2).state.is_trained
      = true := rfl
  simp only [Forecaster.predict, htr, Bool.not_true, Bool.false_eq_true,
    if_false]
  cases hpv : predictionValues
      (Forecaster.fit use_exo shl history sch ahl test2).state.scalers preds2 with
  | none => simp
  | some vals => simp

/-- C3 witness: instantiated at the untrained fixture state. -/
theorem C3_not_fitted_guard_witness :
    stUntrained.is_trained = false ∧
    Forecaster.predict stUntrained [] [] "prediction" =
      Except.error FError.notFitted :=
  ⟨rfl, (C3_not_fitted_guard stUntrained rfl [] [] "prediction" false none
    none [] [] schW).1⟩

/-- C4: every target scaler stored in the registry during data
preparation round-trips: inverse-transforming a transformed 1-D value
sequence returns it (exactly, over ℚ — the idealized form of the
floating-point-tolerance law). -/
theorem C4_scaler_roundtrip (shl ahl : Option Nat) (history test : List Row)
    (sch : ForecastingSchema) (i : Nat) (sc : MinMaxScaler)
    (hmem : (i, sc) ∈ (prepare_data shl history sch ahl test).scalers)
    (v : List ℚ) :
    sc.inverseList (sc.transformList v) = v := by
  apply inverseList_transformList
  rw [prepare_data_eq] at hmem
  obtain ⟨p, hp, heq⟩ := List.mem_map.mp hmem
  have hsc : sc = p.2.scaler := (congrArg Prod.snd heq).symm
  have hmem2 : p.2 ∈ (prepOuts sch shl ahl history).enum.map Prod.snd :=
    List.mem_map_of_mem Prod.snd hp
  rw [List.enum_map_snd] at hmem2
  rw [hsc]
  exact prepOuts_scaler_ne_zero sch shl ahl history p.2 hmem2

/-- C4 witness: the first stored scaler of the fixture panel, on a
concrete value sequence. -/
theorem C4_scaler_roundtrip_witness :
    (0, (entityPrep schW none none (getGroup histW 0)).scaler) ∈
      (prepare_data none histW schW none []).scalers ∧
    ((entityPrep schW none none (getGroup histW 0)).scaler).inverseList
        (((entityPrep schW none none (getGroup histW 0)).scaler).transformList
          [3, 8]) = [3, 8] :=
  ⟨List.mem_cons_self _ _,
    C4_scaler_roundtrip none none histW [] schW 0 _
      (List.mem_cons_self _ _) [3, 8]⟩

/-- C7: the external model's fit is invoked with the per-entity target
list and, only when exogenous usage is enabled, the past-covariate list
(`None` otherwise); the `ExternalFitCall` interface carries no future
covariates, which are retained on the fitted state instead. -/
theorem C7_external_fit_args (use_exo : Bool) (shl ahl : Option Nat)
    (history test : List Row) (sch : ForecastingSchema) :
    (Forecaster.fit use_exo shl history sch ahl test).call.series =
      (prepare_data shl history sch ahl test).targets ∧
    (Forecaster.fit use_exo shl history sch ahl test).call.past_covariates =
      (if use_exo then (prepare_data shl history sch ahl test).past else none) ∧
    (Forecaster.fit use_exo shl history sch ahl test).state.past_covariates =
      (Forecaster.fit use_exo shl history sch ahl test).call.past_covariates ∧
    (Forecaster.fit use_exo shl history sch ahl test).state.future_covariates =
      (prepare_data shl history sch ahl test).future ∧
    (Forecaster.fit use_exo shl history sch ahl test).state.targets_series =
      (prepare_data shl history sch ahl test).targets :=
  ⟨rfl, rfl, rfl, rfl, rfl⟩

theorem map_id_prepHistoryOut (sch : ForecastingSchema) (history : List Row) :
    (prepHistoryOut sch history).map Row.id = history.map Row.id := by
  unfold prepHistoryOut addCalendarCols
  split
  · rw [map_id_setCol, map_id_setCol]
  · rfl

/-- C9: after a fit on a panel with K distinct entity ids, the scaler
registry holds exactly the keys 0..K-1 (one target scaler per index), the
retained target-series list has length K, and the per-index lookup done in
`predict` succeeds — `predictionValues` is total when the external model
returns one forecast per retained target series. -/
theorem C9_scaler_registry (use_exo : Bool) (shl ahl : Option Nat)
    (history test : List Row) (sch : ForecastingSchema) (k : Nat)
    (hk : k < (prepare_data shl history sch ahl test).all_ids.length)
    (preds : List (List ℚ))
    (hp : preds.length =
      (Forecaster.fit use_exo shl history sch ahl test).state.targets_series.length) :
    (Forecaster.fit use_exo shl history sch ahl test).state.all_ids.length =
      ((history.map Row.id).dedup).length ∧
    (Forecaster.fit use_exo shl history sch ahl test).state.scalers.map Prod.fst =
      List.range ((prepare_data shl history sch ahl test).all_ids.length) ∧
    (Forecaster.fit use_exo shl history sch ahl test).state.targets_series.length =
      (prepare_data shl history sch ahl test).all_ids.length ∧
    (dictGet (Forecaster.fit use_exo shl history sch ahl test).state.scalers
      k).isSome ∧
    (predictionValues
      (Forecaster.fit use_exo shl history sch ahl test).state.scalers
      preds).isSome := by
  have hsc : (Forecaster.fit use_exo shl history sch ahl test).state.scalers =
      (prepOuts sch shl ahl history).enum.map (fun p => (p.1, p.2.scaler)) := rfl
  have hids : (prepare_data shl history sch ahl test).all_ids =
      groupKeys (prepHistoryOut sch history) := rfl
  have hts : (Forecaster.fit use_exo shl history sch ahl test).state.targets_series =
      (prepOuts sch shl ahl history).map (fun e => e.target) := rfl
  have houts := prepOuts_length sch shl ahl history
  have hkouts : k < (prepOuts sch shl ahl history).length := by
    rw [houts]; rw [hids] at hk; exact hk
  have hplen : preds.length = (prepOuts sch shl ahl history).length := by
    rw [hp, hts, List.length_map]
  refine ⟨?_, ?_, ?_, ?_, ?_⟩
  · have h1 : (Forecaster.fit use_exo shl history sch ahl test).state.all_ids =
        groupKeys (prepHistoryOut sch history) := rfl
    rw [h1, groupKeys_length, map_id_prepHistoryOut]
  · rw [hsc, scalers_keys_eq_range, houts, hids]
  · rw [hts, List.length_map, houts, hids]
  · rw [hsc]
    exact dictGet_enum_scaler_isSome _ k hkouts
  · rw [hsc]
    rw [predictionValues_eq _ preds (fun i hi =>
      dictGet_enum_scaler_isSome _ i (by rw [← hplen]; exact hi))]
    rfl

/-- C9 witness: the fixture panel with two entities, index 1 and a
two-forecast return. -/
theorem C9_scaler_registry_witness :
    1 < (prepare_data none histW schW none testW).all_ids.length ∧
    (predictionValues
      (Forecaster.fit false none histW schW none testW).state.scalers
      [[0, 1], [0, 1]]).isSome :=
  ⟨by decide, (C9_scaler_registry false none none histW testW schW 1 (by decide)
      [[0, 1], [0, 1]] (by decide)).2.2.2.2⟩

/-- C2: `predict` assembles the output column by inverse-transforming the
k-th forecast with the scaler stored under index k and concatenating the
results in fit order: the written column is one flat sequence in which
rows k·n .. k·n+n-1 hold entity k's de-scaled forecast. -/
theorem C2_prediction_assembly (use_exo : Bool) (shl ahl : Option Nat)
    (history test test_data : List Row) (sch : ForecastingSchema)
    (preds : List (List ℚ)) (n : Nat) (col : String)
    (hp : preds.length =
      (Forecaster.fit use_exo shl history sch ahl test).state.targets_series.length)
    (hn : ∀ p ∈ preds, p.length = n) :
    ∃ vals : List ℚ,
      predictionValues
        (Forecaster.fit use_exo shl history sch ahl test).state.scalers preds =
          some vals ∧
      Forecaster.predict (Forecaster.fit use_exo shl history sch ahl test).state
        preds test_data col = Except.ok (writeCol test_data col vals) ∧
      vals.length = preds.length * n ∧
      (∀ k, k < preds.length →
        (vals.drop (k * n)).take n =
          (scalerAt
            (Forecaster.fit use_exo shl history sch ahl test).state.scalers
            k).inverseList (preds.getD k [])) ∧
      (test_data.length = vals.length →
        getColDf (writeCol test_data col vals) col = vals) := by
  have hsc : (Forecaster.fit use_exo shl history sch ahl test).state.scalers =
      (prepOuts sch shl ahl history).enum.map (fun p => (p.1, p.2.scaler)) := rfl
  have hts : (Forecaster.fit use_exo shl history sch ahl test).state.targets_series =
      (prepOuts sch shl ahl history).map (fun e => e.target) := rfl
  have hplen : preds.length = (prepOuts sch shl ahl history).length := by
    rw [hp, hts, List.length_map]
  have hsome : ∀ i, i < preds.length →
      (dictGet (Forecaster.fit use_exo shl history sch ahl test).state.scalers
        i).isSome := fun i hi => by
    rw [hsc]
    exact dictGet_enum_scaler_isSome _ i (by rw [← hplen]; exact hi)
  have hpv := predictionValues_eq
    (Forecaster.fit use_exo shl history sch ahl test).state.scalers preds hsome
  set d := (Forecaster.fit use_exo shl history sch ahl test).state.scalers
  set mapped := preds.enum.map
    (fun p => (scalerAt d p.1).inverseList p.2) with hmapped
  have hlens : ∀ v ∈ mapped, v.length = n := by
    intro v hv
    obtain ⟨p, hpmem, rfl⟩ := List.mem_map.mp hv
    have hp2 : p.2 ∈ preds.enum.map Prod.snd :=
      List.mem_map_of_mem Prod.snd hpmem
    rw [List.enum_map_snd] at hp2
    simpa [MinMaxScaler.inverseList] using hn p.2 hp2
  refine ⟨mapped.flatten, hpv, ?_, ?_, ?_, ?_⟩
  · have htr : (Forecaster.fit use_exo shl history sch ahl test).state.is_trained
        = true := rfl
    simp only [Forecaster.predict, htr, Bool.not_true, Bool.false_eq_true,
      if_false, hpv]
  · rw [flatten_length_const mapped n hlens, hmapped, List.length_map,
      List.enum_length]
  · intro k hk
    have hkm : k < mapped.length := by
      rw [hmapped, List.length_map, List.enum_length]; exact hk
    rw [flatten_slice mapped n hlens k hkm]
    rw [hmapped, List.getD_eq_getElem?_getD, List.getElem?_map,
      List.getElem?_enum, List.getElem?_eq_getElem hk]
    rw [List.getD_eq_getElem?_getD, List.getElem?_eq_getElem hk]
    rfl
  · intro hlen2
    exact getColDf_writeCol test_data col mapped.flatten hlen2

/-- C2 witness: the spec's scenario — two entities, horizon 2, a 4-row
test frame; the instantiation exhibits the flat 4-value column. -/
theorem C2_prediction_assembly_witness :
    ([[0, 1], [0, 1]] : List (List ℚ)).length =
      (Forecaster.fit false none histW schW none testW).state.targets_series.length ∧
    (∀ p ∈ ([[0, 1], [0, 1]] : List (List ℚ)), p.length = 2) ∧
    ∃ vals : List ℚ,
      predictionValues
        (Forecaster.fit false none histW schW none testW).state.scalers
        [[0, 1], [0, 1]] = some vals ∧
      Forecaster.predict (Forecaster.fit false none histW schW none testW).state
        [[0, 1], [0, 1]] testW "prediction" =
          Except.ok (writeCol testW "prediction" vals) ∧
      vals.length = ([[0, 1], [0, 1]] : List (List ℚ)).length * 2 ∧
      (∀ k, k < ([[0, 1], [0, 1]] : List (List ℚ)).length →
        (vals.drop (k * 2)).take 2 =
          (scalerAt
            (Forecaster.fit false none histW schW none testW).state.scalers
            k).inverseList (([[0, 1], [0, 1]] : List (List ℚ)).getD k [])) ∧
      (testW.length = vals.length →
        getColDf (writeCol testW "prediction" vals) "prediction" = vals) :=
  ⟨by decide, by decide,
    C2_prediction_assembly false none none histW [] testW schW
      [[0, 1], [0, 1]] 2 "prediction" (by decide) (by decide)⟩

theorem truncateSeries_eq_drop (L : Nat) (hL : 0 < L) (s : List SubRow) :
    truncateSeries (some L) (some L) s = s.drop (s.length - L) := by
  unfold truncateSeries truthy ilocTail
  have h0 : (L == 0) = false := by
    simp; omega
  have h1 : L ≠ 0 := by omega
  simp [h0, h1]

theorem getD_map_of_lt {α β : Type} (f : α → β) (l : List α) (k : Nat)
    (hk : k < l.length) (d : β) (d' : α) :
    (l.map f).getD k d = f (l.getD k d') := by
  rw [List.getD_eq_getElem?_getD, List.getElem?_map,
    List.getElem?_eq_getElem hk, List.getD_eq_getElem?_getD,
    List.getElem?_eq_getElem hk]
  rfl

theorem entityPrep_target_length (sch : ForecastingSchema)
    (shl ahl : Option Nat) (s : List SubRow) :
    (entityPrep sch shl ahl s).target.length =
      (truncateSeries shl ahl s).length := by
  unfold entityPrep
  simp [MinMaxScaler.transformList, colOf]

theorem prep_targets_as_map (shl ahl : Option Nat) (history test : List Row)
    (sch : ForecastingSchema) :
    (prepare_data shl history sch ahl test).targets =
      (groupKeys (prepHistoryOut sch history)).map (fun i =>
        (entityPrep sch shl ahl
          (getGroup (prepHistoryOut sch history) i)).target) := by
  rw [prepare_data_eq]
  unfold prepOuts allSeriesOf
  simp [List.map_map]

/-- C5: with `history_length = L` set (the supported path passes the same
L as argument and field), each per-entity series is truncated to the
chronological tail: the truncated frame is a suffix of the entity's
partition, has exactly L rows when the partition exceeds L, is the whole
partition otherwise, and the derived target series has the truncated
length. -/
theorem C5_history_truncation (L : Nat) (hL : 0 < L)
    (history test : List Row) (sch : ForecastingSchema) (k : Nat)
    (hk : k < (prepare_data (some L) history sch (some L) test).all_ids.length) :
    let prep := prepare_data (some L) history sch (some L) test
    let s := getGroup prep.historyOut (prep.all_ids.getD k 0)
    truncateSeries (some L) (some L) s <:+ s ∧
    (L < s.length → (truncateSeries (some L) (some L) s).length = L) ∧
    (s.length ≤ L → truncateSeries (some L) (some L) s = s) ∧
    (prep.targets.getD k []).length =
      (truncateSeries (some L) (some L) s).length := by
  have hids : (prepare_data (some L) history sch (some L) test).all_ids =
      groupKeys (prepHistoryOut sch history) := rfl
  have hho : (prepare_data (some L) history sch (some L) test).historyOut =
      prepHistoryOut sch history := rfl
  refine ⟨?_, ?_, ?_, ?_⟩
  · rw [truncateSeries_eq_drop L hL]
    exact List.drop_suffix _ _
  · intro hmore
    rw [truncateSeries_eq_drop L hL, List.length_drop]
    omega
  · intro hle
    rw [truncateSeries_eq_drop L hL]
    have h0 : (getGroup (prepare_data (some L) history sch (some L)
        test).historyOut ((prepare_data (some L) history sch (some L)
        test).all_ids.getD k 0)).length - L = 0 := by omega
    rw [h0, List.drop_zero]
  · rw [prep_targets_as_map, hids, hho]
    rw [hids] at hk
    rw [getD_map_of_lt _ _ k hk [] 0]
    exact entityPrep_target_length sch (some L) (some L) _

/-- C5 witness: `L = 1` on the fixture panel; entity 0's two-row
partition is truncated to a one-row suffix. -/
theorem C5_history_truncation_witness :
    0 < 1 ∧
    0 < (prepare_data (some 1) histW schW (some 1) []).all_ids.length ∧
    truncateSeries (some 1) (some 1)
        (getGroup (prepare_data (some 1) histW schW (some 1) []).historyOut
          ((prepare_data (some 1) histW schW (some 1) []).all_ids.getD 0 0)) <:+
      getGroup (prepare_data (some 1) histW schW (some 1) []).historyOut
        ((prepare_data (some 1) histW schW (some 1) []).all_ids.getD 0 0) :=
  ⟨by decide, by decide,
    (C5_history_truncation 1 (by decide) histW [] schW 0 (by decide)).1⟩

theorem map_time_setCol {β : Type} (n : String) (f : Row → ℚ) (df : List Row)
    (g : Date → β) :
    (setCol n f df).map (fun r => g r.time) = df.map (fun r => g r.time) := by
  unfold setCol
  rw [List.map_map]
  rfl

theorem getColDf_addCalendarCols_year (tc : String) (df : List Row) :
    getColDf (addCalendarCols tc df) (tc ++ "_year") =
      df.map (fun r => ((r.time.year : ℚ))) := by
  unfold addCalendarCols
  rw [getColDf_setCol_other _ _ _ _ (string_append_year_ne_month tc),
    getColDf_setCol_self]

theorem getColDf_addCalendarCols_month (tc : String) (df : List Row) :
    getColDf (addCalendarCols tc df) (tc ++ "_month") =
      df.map (fun r => ((r.time.month : ℚ))) := by
  unfold addCalendarCols
  rw [getColDf_setCol_self]
  exact map_time_setCol _ _ df (fun t => ((t.month : ℚ)))

theorem cellVal_addCalendarCols (tc : String) (df : List Row) (r : Row)
    (hr : r ∈ addCalendarCols tc df) :
    cellVal r.cells (tc ++ "_year") = (r.time.year : ℚ) ∧
    cellVal r.cells (tc ++ "_month") = (r.time.month : ℚ) := by
  unfold addCalendarCols setCol at hr
  obtain ⟨r1, hr1, rfl⟩ := List.mem_map.mp hr
  obtain ⟨r0, _, rfl⟩ := List.mem_map.mp hr1
  constructor
  · rw [cellVal_write_other _ _ _ _ (string_append_year_ne_month tc)]
    exact cellVal_write_self _ _ _
  · exact cellVal_write_self _ _ _

theorem getGroup_calendar_cells (tc : String) (df : List Row) (i : Nat)
    (sr : SubRow) (hsr : sr ∈ getGroup (addCalendarCols tc df) i) :
    sr.get (tc ++ "_year") = (sr.time.year : ℚ) ∧
    sr.get (tc ++ "_month") = (sr.time.month : ℚ) := by
  unfold getGroup at hsr
  obtain ⟨r, hrf, rfl⟩ := List.mem_map.mp hsr
  exact cellVal_addCalendarCols tc df r (List.mem_of_mem_filter hrf)

/-- C6: with a calendar-typed time column, data preparation adds exactly
the two integer-valued columns `<time_col>_year` and `<time_col>_month`
to both the training and test tables, appends exactly those two names to
the future-covariate list, and the derived columns are already present in
every per-entity sub-frame produced by segmentation. -/
theorem C6_calendar_derivation (shl ahl : Option Nat) (history test : List Row)
    (sch : ForecastingSchema) (hcal : sch.isCalendar = true) :
    (prepare_data shl history sch ahl test).futureNames =
      sch.future_covariates ++
        [sch.time_col ++ "_year", sch.time_col ++ "_month"] ∧
    getColDf (prepare_data shl history sch ahl test).historyOut
      (sch.time_col ++ "_year") = history.map (fun r => ((r.time.year : ℚ))) ∧
    getColDf (prepare_data shl history sch ahl test).historyOut
      (sch.time_col ++ "_month") = history.map (fun r => ((r.time.month : ℚ))) ∧
    getColDf (prepare_data shl history sch ahl test).testOut
      (sch.time_col ++ "_year") = test.map (fun r => ((r.time.year : ℚ))) ∧
    getColDf (prepare_data shl history sch ahl test).testOut
      (sch.time_col ++ "_month") = test.map (fun r => ((r.time.month : ℚ))) ∧
    (∀ i : Nat, ∀ sr ∈ getGroup (prepare_data shl history sch ahl test).historyOut i,
      sr.get (sch.time_col ++ "_year") = (sr.time.year : ℚ) ∧
      sr.get (sch.time_col ++ "_month") = (sr.time.month : ℚ)) ∧
    (∀ i : Nat, ∀ sr ∈ getGroup (prepare_data shl history sch ahl test).testOut i,
      sr.get (sch.time_col ++ "_year") = (sr.time.year : ℚ) ∧
      sr.get (sch.time_col ++ "_month") = (sr.time.month : ℚ)) := by
  have hho : (prepare_data shl history sch ahl test).historyOut =
      addCalendarCols sch.time_col history := by
    rw [prepare_data_eq]
    simp [prepHistoryOut, hcal]
  have hto : (prepare_data shl history sch ahl test).testOut =
      addCalendarCols sch.time_col test := by
    rw [prepare_data_eq]
    simp [prepHistoryOut, hcal]
  have hfn : (prepare_data shl history sch ahl test).futureNames =
      prepFutureNames sch := rfl
  refine ⟨?_, ?_, ?_, ?_, ?_, ?_, ?_⟩
  · rw [hfn]
    simp [prepFutureNames, hcal]
  · rw [hho]; exact getColDf_addCalendarCols_year _ _
  · rw [hho]; exact getColDf_addCalendarCols_month _ _
  · rw [hto]; exact getColDf_addCalendarCols_year _ _
  · rw [hto]; exact getColDf_addCalendarCols_month _ _
  · intro i sr hsr
    rw [hho] at hsr
    exact getGroup_calendar_cells _ _ _ _ hsr
  · intro i sr hsr
    rw [hto] at hsr
    exact getGroup_calendar_cells _ _ _ _ hsr

/-- C6 witness: the fixture panel with a DATE-typed time column. -/
theorem C6_calendar_derivation_witness :
    schDateW.isCalendar = true ∧
    (prepare_data none histW schDateW none testW).futureNames =
      ["t_year", "t_month"] ∧
    getColDf (prepare_data none histW schDateW none testW).historyOut "t_year" =
      histW.map (fun r => ((r.time.year : ℚ))) :=
  ⟨rfl,
    (C6_calendar_derivation none none histW testW schDateW rfl).1,
    (C6_calendar_derivation none none histW testW schDateW rfl).2.1⟩

theorem reshapeCol_of_singletons (m : List (List ℚ))
    (h : ∀ row ∈ m, row.length = 1) : reshapeCol m = m := by
  induction m with
  | nil => rfl
  | cons row rest ih =>
    obtain ⟨x, rfl⟩ := List.length_eq_one.mp (h row (by simp))
    have hrec := ih (fun w hw => h w (by simp [hw]))
    simp only [reshapeCol, List.flatten_cons] at hrec ⊢
    simp [hrec]

theorem blockOf_row_length (s : List SubRow) (cols : List String) :
    ∀ row ∈ blockOf s cols, row.length = cols.length := by
  intro row hrow
  obtain ⟨r, _, rfl⟩ := List.mem_map.mp hrow
  simp [SubRow.restrict]

/-- C8: with exactly one declared covariate column, the extracted block is
reshaped to (and already is) a two-dimensional single-column block, so the
scaler-fitting call passes sklearn's dimensionality check and produces the
same result as the multi-column path; `entityPrep` feeds exactly this
reshaped block to the scaler. -/
theorem C8_single_column_reshape (s : List SubRow) (cols : List String)
    (hc : cols.length = 1) (hs : s ≠ []) :
    (∀ row ∈ blockOf s cols, row.length = 1) ∧
    reshapeCol (blockOf s cols) = blockOf s cols ∧
    fitTransformChecked (reshapeCol (blockOf s cols)) =
      some (fitTransformCols (blockOf s cols)) ∧
    (∀ sch : ForecastingSchema, ∀ shl ahl : Option Nat,
      sch.past_covariates ++ sch.static_covariates = cols →
      truncateSeries shl ahl s = s →
      (entityPrep sch shl ahl s).past =
        some (fitTransformCols (reshapeCol (blockOf s cols)))) := by
  have hrows : ∀ row ∈ blockOf s cols, row.length = 1 := by
    intro row hrow
    rw [blockOf_row_length s cols row hrow, hc]
  have hresh := reshapeCol_of_singletons (blockOf s cols) hrows
  refine ⟨hrows, hresh, ?_, ?_⟩
  · rw [hresh]
    unfold fitTransformChecked
    have hne : blockOf s cols ≠ [] := by
      cases s with
      | nil => exact absurd rfl hs
      | cons r rs => simp [blockOf]
    have hhead : ((blockOf s cols).headD []).length = 1 := by
      cases s with
      | nil => exact absurd rfl hs
      | cons r rs => simp [blockOf, SubRow.restrict, hc]
    rw [if_pos]
    exact ⟨hne, by rw [hhead]; omega, fun row hrow => by
      rw [hrows row hrow, hhead]⟩
  · intro sch shl ahl hcols htr
    unfold entityPrep
    rw [htr, hcols]
    have hempc : cols.isEmpty = false := by
      cases cols with
      | nil => simp at hc
      | cons c cs => rfl
    simp [hempc, hc, hresh]

/-- C8 witness: one declared past-covariate column on a one-row sub-frame
(the 1-row-per-entity scenario from the spec). -/
theorem C8_single_column_reshape_witness :
    ([("p" : String)].length = 1) ∧
    ([(⟨dW0, [("p", 4), ("y", 9)]⟩ : SubRow)] ≠ []) ∧
    fitTransformChecked
        (reshapeCol (blockOf [(⟨dW0, [("p", 4), ("y", 9)]⟩ : SubRow)] ["p"])) =
      some (fitTransformCols
        (blockOf [(⟨dW0, [("p", 4), ("y", 9)]⟩ : SubRow)] ["p"])) :=
  ⟨rfl, by simp,
    (C8_single_column_reshape [⟨dW0, [("p", 4), ("y", 9)]⟩] ["p"] rfl
      (by simp)).2.2.1⟩

/-- C1 counterexample: in the fixture panel entity 1 appears before
entity 0, so first-occurrence order is [1, 0]; segmentation (pandas
groupby with its default key sorting) yields [0, 1] instead. -/
theorem C1_first_occurrence_counterexample :
    (prepare_data none histW schW none testW).all_ids = [0, 1] ∧
    firstOccurrenceKeys histW = [1, 0] ∧
    (prepare_data none histW schW none testW).all_ids ≠
      firstOccurrenceKeys histW :=
  ⟨by decide, by decide, by decide⟩

/-- C1 amended: segmentation yields the (entity id, sub-dataframe) pairs
in ascending sorted entity-id order (not first-occurrence order): the key
list is sorted, duplicate-free and contains exactly the panel's ids; the
k-th target series comes from the k-th key's sub-frame (id column
removed), and the future-covariate pairing of train and test sub-frames
is positional over the same sorted key list. -/
theorem C1_sorted_segmentation (shl ahl : Option Nat) (history test : List Row)
    (sch : ForecastingSchema) :
    List.Sorted (· ≤ ·) (prepare_data shl history sch ahl test).all_ids ∧
    (prepare_data shl history sch ahl test).all_ids.Nodup ∧
    (∀ i : Nat, i ∈ (prepare_data shl history sch ahl test).all_ids ↔
      i ∈ history.map Row.id) ∧
    (∀ k, k < (prepare_data shl history sch ahl test).all_ids.length →
      (prepare_data shl history sch ahl test).targets.getD k [] =
        (entityPrep sch shl ahl
          (getGroup (prepare_data shl history sch ahl test).historyOut
            ((prepare_data shl history sch ahl test).all_ids.getD k 0))).target) ∧
    ((prepare_data shl history sch ahl test).futureNames ≠ [] →
      (prepare_data shl history sch ahl test).all_ids ≠ [] →
      (prepare_data shl history sch ahl test).future =
        some ((prepare_data shl history sch ahl test).all_ids.map (fun i =>
          futureBlock (prepare_data shl history sch ahl test).futureNames
            shl ahl
            (getGroup (prepare_data shl history sch ahl test).historyOut i)
            (getGroup (prepare_data shl history sch ahl test).testOut i)))) := by
  have hids : (prepare_data shl history sch ahl test).all_ids =
      groupKeys (prepHistoryOut sch history) := rfl
  refine ⟨?_, ?_, ?_, ?_, ?_⟩
  · rw [hids]; exact groupKeys_sorted _
  · rw [hids]; exact groupKeys_nodup _
  · intro i
    rw [hids, mem_groupKeys, ← map_id_prepHistoryOut sch history]
  · intro k hk
    rw [prep_targets_as_map]
    rw [hids] at hk
    exact getD_map_of_lt _ _ k hk [] 0
  · intro hfn hne
    have hfnE : (prepFutureNames sch).isEmpty = false := by
      have h1 : (prepare_data shl history sch ahl test).futureNames =
          prepFutureNames sch := rfl
      rw [h1] at hfn
      cases hx : prepFutureNames sch with
      | nil => exact absurd hx hfn
      | cons a l => rfl
    have hgne : groupKeys (prepHistoryOut sch history) ≠ [] := by
      rw [hids] at hne; exact hne
    rw [prepare_data_eq]
    simp only [hfnE, Bool.false_eq_true, if_false]
    unfold allSeriesOf
    rw [List.zip_map', List.map_map]
    have hmapE : ∀ (f : Nat → List (List ℚ)),
        ((groupKeys (prepHistoryOut sch history)).map f).isEmpty = false := by
      intro f
      cases hx : groupKeys (prepHistoryOut sch history) with
      | nil => exact absurd hx hgne
      | cons a l => rfl
    simp only [hmapE, Bool.false_eq_true, if_false]
    rfl

/-- C1 amended witness. -/
theorem C1_sorted_segmentation_witness :
    List.Sorted (· ≤ ·) (prepare_data none histW schW none testW).all_ids :=
  (C1_sorted_segmentation none none histW testW schW).1

/-- C7 witness: with exogenous usage disabled, the external fit call
receives no past covariates. -/
theorem C7_external_fit_args_witness :
    (Forecaster.fit false none histW schW none testW).call.past_covariates =
      none ∧
    (Forecaster.fit false none histW schW none testW).call.series =
      (prepare_data none histW schW none testW).targets :=
  ⟨(C7_external_fit_args false none none histW testW schW).2.1,
    (C7_external_fit_args false none none histW testW schW).1⟩

/-- C10: frame effects. `fit` writes the derived calendar columns onto the
caller's history and test objects (same references, all other references
untouched), and `predict` writes the prediction column onto the caller's
test object and returns that very reference, not a fresh one. -/
theorem C10_in_place_frame_effects (use_exo : Bool) (shl ahl : Option Nat)
    (σ : Store) (historyRef testRef : Nat) (sch : ForecastingSchema)
    (href : historyRef ≠ testRef) (hcal : sch.isCalendar = true)
    (st : FitResult) (hst : st.is_trained = true)
    (preds : List (List ℚ)) (vals : List ℚ)
    (hv : predictionValues st.scalers preds = some vals) (col : String) :
    (Forecaster.fitStore use_exo shl σ historyRef sch ahl testRef).1 historyRef =
      addCalendarCols sch.time_col (σ historyRef) ∧
    (Forecaster.fitStore use_exo shl σ historyRef sch ahl testRef).1 testRef =
      addCalendarCols sch.time_col (σ testRef) ∧
    (∀ q, q ≠ historyRef → q ≠ testRef →
      (Forecaster.fitStore use_exo shl σ historyRef sch ahl testRef).1 q = σ q) ∧
    Forecaster.predictStore st preds σ testRef col =
      Except.ok (Store.update σ testRef (writeCol (σ testRef) col vals),
        testRef) ∧
    Store.update σ testRef (writeCol (σ testRef) col vals) testRef =
      writeCol (σ testRef) col vals ∧
    (∀ q, q ≠ testRef →
      Store.update σ testRef (writeCol (σ testRef) col vals) q = σ q) := by
  have hhist : (Forecaster.fit use_exo shl (σ historyRef) sch ahl
      (σ testRef)).historyOut = addCalendarCols sch.time_col (σ historyRef) := by
    show prepHistoryOut sch (σ historyRef) = _
    simp [prepHistoryOut, hcal]
  have htest : (Forecaster.fit use_exo shl (σ historyRef) sch ahl
      (σ testRef)).testOut = addCalendarCols sch.time_col (σ testRef) := by
    show prepHistoryOut sch (σ testRef) = _
    simp [prepHistoryOut, hcal]
  refine ⟨?_, ?_, ?_, ?_, ?_, ?_⟩
  · simp [Forecaster.fitStore, Store.update, href, hhist]
  · simp [Forecaster.fitStore, Store.update, htest]
  · intro q hq1 hq2
    simp [Forecaster.fitStore, Store.update, hq1, hq2]
  · simp only [Forecaster.predictStore, hst, Bool.not_true, Bool.false_eq_true,
      if_false, hv]
  · simp [Store.update]
  · intro q hq
    simp [Store.update, hq]

/-- C10 witness: concrete store with the history object at reference 0 and
the test object at reference 1. -/
theorem C10_in_place_frame_effects_witness :
    (0 : Nat) ≠ 1 ∧
    schDateW.isCalendar = true ∧
    stTrainedEmpty.is_trained = true ∧
    predictionValues stTrainedEmpty.scalers ([] : List (List ℚ)) = some [] ∧
    (Forecaster.fitStore false none storeW 0 schDateW none 1).1 0 =
      addCalendarCols schDateW.time_col (storeW 0) ∧
    Forecaster.predictStore stTrainedEmpty [] storeW 1 "prediction" =
      Except.ok (Store.update storeW 1 (writeCol (storeW 1) "prediction" []),
        1) :=
  ⟨by decide, rfl, rfl, rfl,
    (C10_in_place_frame_effects false none none storeW 0 1 schDateW
      (by decide) rfl stTrainedEmpty rfl [] [] rfl "prediction").1,
    (C10_in_place_frame_effects false none none storeW 0 1 schDateW
      (by decide) rfl stTrainedEmpty rfl [] [] rfl "prediction").2.2.2.1⟩

end Predictor
